import Mathlib

/-!
Verification development for the CHOW decision engine: a shallow embedding of
the `DecisionEngine` object into Lean 4, together with theorems settling the
behavioural claims about its risk classifier, narrative generators, checklist
builder, alert generator and formatting pipeline.

The engine is a pure rule cascade over nine categorical input fields plus an
acquisition date; the only implicit external input (`new Date()`) is modelled
as an explicit `today` parameter threaded through every function that derives
timing.
-/

namespace DecisionEngine

inductive YesNo where
  | yes | no
deriving DecidableEq, Fintype

inductive YNU where
  | yes | no | unknown
deriving DecidableEq, Fintype

inductive SaleType where
  | asset | stock | unknown
deriving DecidableEq, Fintype

inductive BlacklistStatus where
  | none | old | new | both
deriving DecidableEq, Fintype

inductive Timing where
  | past | future
deriving DecidableEq, Fintype

inductive Level where
  | low | medium | high
deriving DecidableEq, Fintype

inductive Confidence where
  | high | medium | low
deriving DecidableEq

inductive AlertType where
  | critical | warning
deriving DecidableEq

inductive TaskLabel where
  | billing | sales | escalate
deriving DecidableEq

/-- A JavaScript `Date` value, modelled as a local calendar day index together
with the milliseconds elapsed within that day. -/
structure JSDate where
  day : Int
  msOfDay : Nat
deriving DecidableEq

def msPerDay : Int := 86400000

/-- The numeric timestamp of a date, which is what JavaScript relational
operators on `Date` objects compare. -/
def JSDate.timestamp (d : JSDate) : Int := d.day * msPerDay + d.msOfDay

/-- `date.setHours(0, 0, 0, 0)`: zero out the time-of-day component. -/
def setHoursZero (d : JSDate) : JSDate := ⟨d.day, 0⟩

/-- A raw date input string paired with the `Date` value that `new Date(s)`
parses it to. -/
structure DateString where
  raw : String
  parsed : JSDate
deriving DecidableEq

/-- The input record consumed by every engine function. -/
structure Inputs where
  acquisitionDate : DateString
  saleType : SaleType
  contractSigned : YNU
  outstandingAR : YesNo
  futureBookedShifts : YesNo
  financialDistress : YNU
  willingnessToPay : YNU
  blacklisted : BlacklistStatus
  badDebt : YesNo
  oldOwnerName : String
  newOwnerName : String
  affectedFacilities : String
  newFacilityNames : String
  newOwnerContact : String

/-- `getTiming(acquisitionDate)`: compare the acquisition date against the
current date with both times-of-day stripped. -/
def getTiming (acquisitionDate : DateString) (today : JSDate) : Timing :=
  if (setHoursZero acquisitionDate.parsed).timestamp ≤ (setHoursZero today).timestamp
  then .past else .future

structure RiskResult where
  level : Level
  reasons : List String
deriving DecidableEq

/-- Body of `calculateRisk` after the timing derivation at its top. -/
def calculateRiskT (timing : Timing) (inputs : Inputs) : RiskResult :=
  let hasAR := inputs.outstandingAR == .yes
  let hasFBS := inputs.futureBookedShifts == .yes
  let hasExposure := hasAR || hasFBS
  let contractSigned := inputs.contractSigned == .yes
  let noContract := inputs.contractSigned == .no
  let unknownContract := inputs.contractSigned == .unknown
  let isAssetSale := inputs.saleType == .asset
  let isStockSale := inputs.saleType == .stock
  let isUnknownSale := inputs.saleType == .unknown
  let hasDistress := inputs.financialDistress == .yes
  let unwillingToPay := inputs.willingnessToPay == .no
  let newOwnerBlacklisted := inputs.blacklisted == .new || inputs.blacklisted == .both
  let oldOwnerBlacklisted := inputs.blacklisted == .old || inputs.blacklisted == .both
  let inBadDebt := inputs.badDebt == .yes
  if !hasExposure then
    let reasons := ["No financial exposure ($0 AR, no future booked shifts)"]
    if newOwnerBlacklisted then
      ⟨.medium, reasons ++ ["Note: New owner is blacklisted - relationship cannot continue"]⟩
    else ⟨.low, reasons⟩
  else if isStockSale && contractSigned then
    let reasons := ["Stock sale with signed contract - new owner assumes debt and is committed"]
    let reasons := reasons ++
      (if hasDistress then ["Note: Financial distress signals present, but new owner has signed contract"] else [])
    if newOwnerBlacklisted then
      ⟨.high, reasons ++ ["Warning: New owner is blacklisted - escalate to collections team"]⟩
    else ⟨.low, reasons⟩
  else if timing == .future && contractSigned && !newOwnerBlacklisted then
    let reasons := ["Future CHOW with contract already signed - time to prepare"]
    if isAssetSale && hasAR then
      ⟨.medium, reasons ++ ["Asset sale with AR - need to confirm old owner payment plan"]⟩
    else ⟨.low, reasons⟩
  else if newOwnerBlacklisted && hasExposure then
    ⟨.high, ["New owner is blacklisted with financial exposure - cannot safely continue"]⟩
  else if timing == .past && (noContract || unknownContract) && hasExposure then
    let reasons := ["Past CHOW with no contract and financial exposure"]
    let reasons := reasons ++
      (if isUnknownSale then ["Sale type unknown - cannot determine who is responsible for debt"] else [])
    ⟨.high, reasons⟩
  else if isAssetSale && hasDistress && hasAR then
    ⟨.high, ["Asset sale with financial distress and outstanding AR - old owner unlikely to pay"]⟩
  else if unwillingToPay && hasAR then
    ⟨.high, ["Responsible party indicates unwillingness to pay with outstanding AR"]⟩
  else if isUnknownSale && hasExposure && timing == .past then
    ⟨.high, ["Past CHOW with unknown sale type - unclear who is responsible for debt"]⟩
  else if inBadDebt && isStockSale && !contractSigned then
    ⟨.high, ["Account in bad debt collections with stock sale and no new contract"]⟩
  else if timing == .future && !contractSigned && hasExposure then
    let reasons := ["Future CHOW without signed contract but time to act"]
    let reasons := reasons ++
      (if hasDistress && isAssetSale then ["Financial distress with asset sale - prioritize securing new contract"] else [])
    ⟨.medium, reasons⟩
  else if isStockSale && !contractSigned && hasExposure then
    ⟨.medium, ["Stock sale without contract - new owner would assume debt but needs to commit"]⟩
  else if isAssetSale && contractSigned && hasAR then
    let reasons := ["Asset sale with contract - need to collect from old owner"]
    if hasDistress then
      ⟨.medium, reasons ++ ["Financial distress signals - old owner may have difficulty paying"]⟩
    else ⟨.medium, reasons⟩
  else if inputs.willingnessToPay == .unknown && hasAR then
    ⟨.medium, ["Unknown willingness to pay with outstanding AR"]⟩
  else if oldOwnerBlacklisted && hasAR && isAssetSale then
    ⟨.medium, ["Old owner blacklisted - may affect collection of pre-sale debt"]⟩
  else if unknownContract && hasExposure then
    ⟨.medium, ["Contract status unknown with financial exposure"]⟩
  else ⟨.medium, ["Standard CHOW scenario - follow normal process"]⟩

/-- `calculateRisk(inputs)`: derive the timing, then run the rule cascade. -/
def calculateRisk (today : JSDate) (inputs : Inputs) : RiskResult :=
  calculateRiskT (getTiming inputs.acquisitionDate today) inputs

/-- Body of `generateScenarioDescription` after the timing derivation. -/
def generateScenarioDescriptionT (timing : Timing) (inputs : Inputs) : String :=
  let parts := [if timing == .past then "Past CHOW" else "Future CHOW"]
  let parts := parts ++
    [if inputs.saleType == .asset then "Asset Sale"
     else if inputs.saleType == .stock then "Stock Sale" else "Unknown Sale Type"]
  let parts := parts ++ (if inputs.outstandingAR == .yes then ["Outstanding AR"] else [])
  let parts := parts ++ (if inputs.futureBookedShifts == .yes then ["Has FBS"] else [])
  let parts := parts ++
    (if inputs.contractSigned == .yes then ["Contract Signed"]
     else if inputs.contractSigned == .no then ["No Contract"] else [])
  String.intercalate " | " parts

def generateScenarioDescription (today : JSDate) (inputs : Inputs) : String :=
  generateScenarioDescriptionT (getTiming inputs.acquisitionDate today) inputs

/-- Body of `generateKeyFocus` after the timing derivation. The source is a
sequence of early-returning guarded blocks; guards of inner blocks are
conjoined with their enclosing risk-level test. -/
def generateKeyFocusT (timing : Timing) (inputs : Inputs) (riskLevel : Level) : String :=
  let hasAR := inputs.outstandingAR == .yes
  let hasFBS := inputs.futureBookedShifts == .yes
  let noContract := inputs.contractSigned == .no || inputs.contractSigned == .unknown
  let isAssetSale := inputs.saleType == .asset
  let isStockSale := inputs.saleType == .stock
  let hasDistress := inputs.financialDistress == .yes
  if !hasAR && !hasFBS then
    "Low risk situation. No immediate financial exposure. Archive the old account and treat as standard new customer onboarding if they want to continue with Clipboard."
  else if riskLevel == .high && hasDistress then
    "High-risk scenario. Old owner shows signs of financial distress and is unlikely to pay. Immediate action needed: PEND the account now, attempt contact to assess situation, and escalate to Charlie if no response."
  else if riskLevel == .high && (timing == .past && noContract && hasAR) then
    "High-risk scenario. Ownership already changed with no contract and money owed. PEND immediately. Call old and new owners to understand the situation and determine path forward. Focus on securing a new contract or shutting down services."
  else if riskLevel == .high && (inputs.blacklisted == .new || inputs.blacklisted == .both) then
    "Critical: New owner is blacklisted. Check for upcoming shifts and inform collections team (Erick, Gayah, Mike Amicucci). Mike will assess risk and determine if services can continue."
  else if riskLevel == .high && (hasFBS && noContract) then
    "High-risk scenario. Future shifts are booked but no contract in place. PEND immediately to prevent additional exposure. Contact both parties urgently to clarify contract status."
  else if riskLevel == .medium && (timing == .future && isAssetSale && noContract && hasAR) then
    "Medium risk. CHOW is upcoming which gives time to act. Focus on confirming who is responsible for pre-sale debt and getting a new contract signed before the transition date."
  else if riskLevel == .medium && (isAssetSale && inputs.contractSigned == .yes && hasAR) then
    "Medium risk. Contract is in place but pre-sale AR needs attention. Create new account for old entity, transfer pre-sale invoices, and establish clear payment expectations with old owner."
  else if isStockSale && inputs.contractSigned == .yes then
    "Stock sale with contract signed. New owner assumes all debt including pre-sale invoices. Update account information across platforms and confirm new owner understands payment expectations."
  else if isStockSale && noContract then
    "Stock sale without contract. New owner would assume debt but needs to sign contract. PEND account until contract is secured. Focus on getting Sales to close the new contract."
  else
    "Gather remaining information, confirm financial responsibility, and coordinate with Sales on contract status."

def generateKeyFocus (today : JSDate) (inputs : Inputs) (riskLevel : Level) : String :=
  generateKeyFocusT (getTiming inputs.acquisitionDate today) inputs riskLevel

structure Action where
  text : String
  confidence : Confidence
deriving DecidableEq

/-- Body of `generatePriorityActions` after the timing derivation. Each
early-returning block of the source becomes one branch producing its full
action list; conditional mid-list pushes become conditional list segments. -/
def generatePriorityActionsT (timing : Timing) (inputs : Inputs) (riskLevel : Level) : List Action :=
  let hasAR := inputs.outstandingAR == .yes
  let hasFBS := inputs.futureBookedShifts == .yes
  let hasExposure := hasAR || hasFBS
  let contractSigned := inputs.contractSigned == .yes
  let noContract := inputs.contractSigned == .no
  let unknownContract := inputs.contractSigned == .unknown
  let isAssetSale := inputs.saleType == .asset
  let isStockSale := inputs.saleType == .stock
  let isUnknownSale := inputs.saleType == .unknown
  let hasDistress := inputs.financialDistress == .yes
  let newOwnerBlacklisted := inputs.blacklisted == .new || inputs.blacklisted == .both
  if !hasExposure then
    [⟨"Alert leadership of the CHOW", .high⟩,
     ⟨"Archive the account to prevent posting under new ownership without contract", .high⟩] ++
    (if newOwnerBlacklisted then
      [⟨"Inform collections team - new owner is blacklisted, relationship cannot continue", .high⟩]
     else
      [⟨"Sales treats this as standard new customer onboarding if they want to continue", .high⟩])
  else if newOwnerBlacklisted then
    [⟨"Check CBH App for upcoming shifts at affected facilities and document them", .high⟩,
     ⟨"Inform Erick, Gayah, and Mike Amicucci in #collections-team immediately", .high⟩,
     ⟨"Wait for Mike to assess risk and determine if services can continue", .high⟩]
  else if riskLevel == .high then
    if timing == .past && (noContract || unknownContract) then
      [⟨"PEND account immediately using \"Change of ownership\" reason", .high⟩,
       ⟨"Call old and new owners to assess situation and gather information", .high⟩] ++
      (if hasFBS then
        [⟨"If no response within 24-48 hours, consider SUSPEND to prevent further exposure", .medium⟩]
       else []) ++
      [⟨"Alert Sales about potential new contract opportunity", .high⟩]
    else if isAssetSale && hasDistress && hasAR then
      [⟨"PEND account - old owner in distress unlikely to pay pre-sale debt", .high⟩,
       ⟨"Attempt contact with old owner to understand their situation and payment ability", .medium⟩,
       ⟨"Prioritize getting new contract signed to protect ongoing relationship", .high⟩,
       ⟨"Consider escalating to Charlie if old owner is completely unresponsive", .medium⟩]
    else if isUnknownSale then
      [⟨"URGENT: Determine sale type (asset vs stock) - this determines who owes the debt", .high⟩,
       ⟨"PEND account until sale type is confirmed", .high⟩,
       ⟨"Contact both old and new owners to clarify transaction structure", .medium⟩]
    else
      [⟨"PEND account to prevent additional exposure", .high⟩,
       ⟨"Escalate to leadership for guidance on approach", .medium⟩,
       ⟨"Attempt contact with responsible party to assess payment likelihood", .medium⟩]
  else if riskLevel == .medium then
    if timing == .future then
      (if !contractSigned then
        [⟨"Work with Sales to get new contract signed before transition date", .high⟩]
       else []) ++
      (if isAssetSale && hasAR then
        [⟨"Confirm with old owner they understand responsibility for pre-sale invoices", .high⟩,
         ⟨"Establish payment timeline with old owner before transition", .medium⟩]
       else []) ++
      (if isUnknownSale then
        [⟨"Determine sale type before transition to clarify debt responsibility", .high⟩]
       else []) ++
      (if isStockSale then
        [⟨"Confirm new owner understands they will assume all outstanding debt", .high⟩]
       else [])
    else if isStockSale && !contractSigned then
      [⟨"PEND account until new contract is signed", .high⟩,
       ⟨"New owner would assume debt - focus on getting contract signed quickly", .high⟩,
       ⟨"Alert Sales to prioritize this contract", .medium⟩]
    else if isAssetSale && contractSigned && hasAR then
      [⟨"Create new account for old entity to track pre-sale invoices separately", .high⟩,
       ⟨"Transfer pre-sale invoices to old entity account", .high⟩,
       ⟨"Establish payment plan with old owner for pre-sale debt", .medium⟩] ++
      (if hasDistress then
        [⟨"Monitor old owner closely - distress signals present", .medium⟩]
       else [])
    else
      [⟨"Confirm financial responsibility with appropriate party", .medium⟩,
       ⟨"Coordinate with Sales on contract and account setup", .medium⟩,
       ⟨"Consider PEND if situation is unclear - use your judgment", .low⟩]
  else if isStockSale && contractSigned then
    [⟨"Update account information across all platforms (Salesforce, CBH App, Invoiced)", .high⟩,
     ⟨"Confirm new owner understands they assume all outstanding debt", .high⟩,
     ⟨"Verify and update all child facility links", .high⟩]
  else if timing == .future && contractSigned then
    [⟨"Coordinate transition plan with Sales and new owner", .high⟩] ++
    (if isAssetSale && hasAR then
      [⟨"Confirm old owner payment plan for pre-sale invoices", .medium⟩]
     else []) ++
    [⟨"Prepare account updates for transition date", .high⟩]
  else
    [⟨"Follow standard CHOW process - situation is low risk", .high⟩,
     ⟨"Confirm payment expectations with responsible party", .medium⟩,
     ⟨"Tag leadership in Slack for visibility", .high⟩]

def generatePriorityActions (today : JSDate) (inputs : Inputs) (riskLevel : Level) : List Action :=
  generatePriorityActionsT (getTiming inputs.acquisitionDate today) inputs riskLevel

structure ChecklistTask where
  text : String
  completed : Bool
  note : Option String
  label : Option TaskLabel
deriving DecidableEq

structure Checklist where
  stage1 : List ChecklistTask
  stage2 : List ChecklistTask
  stage3 : List ChecklistTask
  stage4 : List ChecklistTask
deriving DecidableEq

/-- `saleType.toUpperCase()` applied to the sale-type field. -/
def SaleType.upper : SaleType → String
  | .asset => "ASSET"
  | .stock => "STOCK"
  | .unknown => "UNKNOWN"

/-- `timing.toUpperCase()`. -/
def Timing.upper : Timing → String
  | .past => "PAST"
  | .future => "FUTURE"

/-- `risk.level.toUpperCase()`. -/
def Level.upper : Level → String
  | .low => "LOW"
  | .medium => "MEDIUM"
  | .high => "HIGH"

/-- `alert.type.toUpperCase()`. -/
def AlertType.upper : AlertType → String
  | .critical => "CRITICAL"
  | .warning => "WARNING"

/-- Body of `generateChecklist` after the timing derivation. Sequential pushes
become list concatenations; the trailing no-exposure special case wholesale
replaces stages 2, 3 and 4, exactly as in the source. The `riskLevel`
parameter is accepted but, as in the source, never read. -/
def generateChecklistT (timing : Timing) (inputs : Inputs) (riskLevel : Level) : Checklist :=
  let hasAR := inputs.outstandingAR == .yes
  let hasFBS := inputs.futureBookedShifts == .yes
  let noContract := inputs.contractSigned == .no || inputs.contractSigned == .unknown
  let contractSigned := inputs.contractSigned == .yes
  let isAssetSale := inputs.saleType == .asset
  let isStockSale := inputs.saleType == .stock
  let isUnknownSale := inputs.saleType == .unknown
  let hasDistress := inputs.financialDistress == .yes
  let inBadDebt := inputs.badDebt == .yes
  let stage1 :=
    [⟨"Confirm outstanding AR status", true,
      some (if hasAR then "Yes - has outstanding AR" else "No outstanding AR"), none⟩,
     ⟨"Confirm future booked shifts (FBS)", true,
      some (if hasFBS then "Yes - has FBS" else "No FBS"), none⟩,
     ⟨"Confirm acquisition date and timing", true,
      some (if timing == .past then "PAST" else "FUTURE"), none⟩,
     ⟨"Determine sale type", true, some inputs.saleType.upper, none⟩] ++
    (if !inBadDebt then
      [⟨"Check if account is in bad debt collections", inputs.badDebt == .no, none, none⟩]
     else
      [⟨"Check if account is in bad debt collections", true, some "YES - in bad debt", none⟩])
  let stage2 :=
    (if isAssetSale || isUnknownSale then
      [⟨"Confirm financial responsibility with old owner for pre-sale invoices", false, none, some .billing⟩]
     else []) ++
    (if isStockSale then
      [⟨"Confirm new owner understands they assume all outstanding debt", false, none, some .billing⟩]
     else []) ++
    [⟨"Confirm all payers know when we expect next payment", false, none, some .billing⟩] ++
    (if hasDistress || inputs.financialDistress == .unknown then
      [⟨"Investigate signs of financial distress from responsible owner", hasDistress,
        (if hasDistress then some "Already indicated: YES" else none), some .billing⟩]
     else []) ++
    (if noContract then
      [⟨"Sales: Get new contract signed with new ownership", false, none, some .sales⟩]
     else
      [⟨"Confirm contract is in place with Sales", contractSigned, none, some .sales⟩]) ++
    [⟨"Request proof of ownership change documentation", false, none, some .billing⟩]
  let stage3 :=
    [⟨"Once financial responsibility confirmed, tag leadership for re-enrollment decision", false, none, some .escalate⟩] ++
    (if isAssetSale then
      [⟨"Sales: Create new parent account for acquiring entity across all platforms", false, none, some .sales⟩,
       ⟨"Sales: Mark old parent account as inactive (unless other active facilities remain)", false, none, some .sales⟩] ++
      (if hasAR || hasFBS then
        [⟨"Transfer pre-sale invoices/shifts to old entity account", false, none, some .billing⟩]
       else [])
     else []) ++
    (if isStockSale then
      [⟨"Sales: Update existing parent account info across all platforms", false, none, some .sales⟩,
       ⟨"Sales: Verify and update all child facility links", false, none, some .sales⟩]
     else []) ++
    [⟨"Sales: Adjust charge rates as necessary", false, none, some .sales⟩] ++
    (if hasAR && isAssetSale then
      [⟨"Notify @cash-ops-team of transferred invoices (include list, partial payments, credit notes)", false, none, some .billing⟩]
     else []) ++
    (if inBadDebt && isStockSale then
      [⟨"Tag bad debt team in #collections-team about acquisition (stock sale = new owner takes debt)", false, none, some .escalate⟩,
       ⟨"Wait for Kelly approval before re-enrolling", false, none, some .escalate⟩]
     else [])
  let stage4 :=
    if hasAR then
      [⟨"Continue chasing responsible party for pre-CHOW invoices", false, none, some .billing⟩,
       ⟨"Monitor for payment commitments and follow up", false, none, some .billing⟩] ++
      (if isAssetSale then
        [⟨"Archive old account once all invoices paid", false, none, some .billing⟩]
       else [])
    else []
  if !hasAR && !hasFBS then
    ⟨stage1,
     [⟨"Coordinate with Sales on new customer onboarding (if applicable)", false, none, some .sales⟩],
     [⟨"Archive old account", false, none, some .billing⟩],
     [⟨"No ongoing collection needed - $0 AR", true, none, none⟩]⟩
  else ⟨stage1, stage2, stage3, stage4⟩

def generateChecklist (today : JSDate) (inputs : Inputs) (riskLevel : Level) : Checklist :=
  generateChecklistT (getTiming inputs.acquisitionDate today) inputs riskLevel

structure Alert where
  type : AlertType
  text : String
deriving DecidableEq

def newOwnerAlertText : String :=
  "NEW OWNER IS BLACKLISTED: Must inform Erick, Gayah, and Mike Amicucci in #collections-team before proceeding. Mike will determine if services can continue."

def oldOwnerAlertText : String :=
  "Old owner is blacklisted. If facility was previously blacklisted, follow Process of Reinstatement SOP. Accounts with debt under $5k and reliable payment history may be reinstated."

def badDebtAlertText : String :=
  "Account is in Bad Debt (Handled by Internet Bad Debts Collections). Additional steps required before re-enrollment - see Bad Debt section of SOP."

def distressAlertText : String :=
  "Financial distress signals detected. Higher risk of non-payment. Consider escalating to Charlie for guidance on approach."

/-- `generateAlerts(inputs)`: four sequential guarded pushes. Note that the
old-owner guard in the source tests strict equality with `'old'`. -/
def generateAlerts (inputs : Inputs) : List Alert :=
  (if inputs.blacklisted == .new || inputs.blacklisted == .both then
    [⟨.critical, newOwnerAlertText⟩] else []) ++
  (if inputs.blacklisted == .old then
    [⟨.warning, oldOwnerAlertText⟩] else []) ++
  (if inputs.badDebt == .yes then
    [⟨.warning, badDebtAlertText⟩] else []) ++
  (if inputs.financialDistress == .yes then
    [⟨.warning, distressAlertText⟩] else [])

/-- Render one checklist task line, with its checkbox and optional note. -/
def renderTask (task : ChecklistTask) : String :=
  let checkbox := if task.completed then "[x]" else "[ ]"
  let line := "- " ++ checkbox ++ " " ++ task.text
  let line :=
    match task.note with
    | some n => line ++ " *(" ++ n ++ ")*"
    | none => line
  line ++ "\n"

/-- One stage section of the aggregate document. An empty stage contributes
nothing, mirroring the `continue` in the source loop. -/
def stageSection (title : String) (tasks : List ChecklistTask) : String :=
  if tasks.isEmpty then ""
  else "### " ++ title ++ "\n" ++ String.join (tasks.map renderTask) ++ "\n"

def stage1Title : String := "Stage 1: Pre-Outreach"
def stage2Title : String := "Stage 2: Outreach"
def stage3Title : String := "Stage 3: Post-Outreach"
def stage4Title : String := "Stage 4: Continuous"

/-- The checklist portion of the aggregate document: the four stages rendered
in fixed order, empty stages skipped. -/
def checklistSections (checklist : Checklist) : String :=
  stageSection stage1Title checklist.stage1 ++
  stageSection stage2Title checklist.stage2 ++
  stageSection stage3Title checklist.stage3 ++
  stageSection stage4Title checklist.stage4

/-- `facilities.split(newline).map(f => "- " + f.trim()).join(newline)`. -/
def bulletLines (s : String) : String :=
  String.intercalate "\n" ((s.splitOn "\n").map (fun f => "- " ++ f.trim))

/-- `facilities.split(newline).map(f => f.trim()).join(", ")`. -/
def commaLines (s : String) : String :=
  String.intercalate ", " ((s.splitOn "\n").map (fun f => f.trim))

/-- `formatForLinear(inputs, risk, checklist, priorityActions, alerts)`. -/
def formatForLinear (today : JSDate) (inputs : Inputs) (risk : RiskResult)
    (checklist : Checklist) (priorityActions : List Action) (alerts : List Alert) : String :=
  let timing := getTiming inputs.acquisitionDate today
  let output := "## CHOW Details\n"
  let output := output ++ "**Old Owner:** " ++ inputs.oldOwnerName ++ "\n"
  let output := output ++ "**New Owner:** " ++ inputs.newOwnerName ++ "\n"
  let output := output ++ "**Affected Facilities:**\n" ++ bulletLines inputs.affectedFacilities ++ "\n"
  let output := output ++
    (if inputs.newFacilityNames != "" then
      "**New Facility Names:**\n" ++ bulletLines inputs.newFacilityNames ++ "\n"
     else "")
  let output := output ++ "**Acquisition Date:** " ++ inputs.acquisitionDate.raw ++
    " (" ++ timing.upper ++ ")\n"
  let output := output ++ "**Sale Type:** " ++ inputs.saleType.upper ++ "\n"
  let output := output ++
    (if inputs.newOwnerContact != "" then
      "**New Owner Contact:**\n" ++ inputs.newOwnerContact ++ "\n"
     else "")
  let output := output ++ "\n---\n\n"
  let output := output ++ "## Risk Assessment: " ++ risk.level.upper ++ "\n\n"
  let output := output ++ generateKeyFocus today inputs risk.level ++ "\n\n"
  let output := output ++ "### Priority Actions\n"
  let output := output ++
    String.join (priorityActions.enum.map (fun p => toString (p.1 + 1) ++ ". " ++ p.2.text ++ "\n"))
  let output := output ++
    "\n*Use your judgment and escalate to Louis Case or Charlie Eikenberg if the situation is unclear.*\n\n---\n\n"
  let output := output ++ checklistSections checklist
  let output := output ++
    (if !alerts.isEmpty then
      "### Special Considerations\n" ++
      String.join (alerts.map (fun alert => "- **" ++ alert.type.upper ++ ":** " ++ alert.text ++ "\n"))
     else "")
  output

/-- `formatStageForLinear(stageName, stageTitle, tasks, inputs)`. The
`stageName` argument is accepted but, as in the source, never read. -/
def formatStageForLinear (stageName : String) (stageTitle : String)
    (tasks : List ChecklistTask) (inputs : Inputs) : String :=
  let output := "## " ++ stageTitle ++ "\n"
  let output := output ++ "**CHOW:** " ++ inputs.oldOwnerName ++ " → " ++ inputs.newOwnerName ++ "\n"
  let output := output ++ "**Facilities:** " ++ commaLines inputs.affectedFacilities ++ "\n"
  let output := output ++
    (if inputs.newFacilityNames != "" then
      "**New Names:** " ++ commaLines inputs.newFacilityNames ++ "\n"
     else "")
  let output := output ++ "\n---\n\n"
  let output := output ++ "### Tasks\n"
  output ++ String.join (tasks.map renderTask)

/-- The per-stage documents: one entry per checklist stage, present exactly
when that stage has at least one task. -/
structure StageMarkdown where
  stage1 : Option String
  stage2 : Option String
  stage3 : Option String
  stage4 : Option String
deriving DecidableEq

/-- `generateStageMarkdown(inputs, checklist)`. -/
def generateStageMarkdown (inputs : Inputs) (checklist : Checklist) : StageMarkdown :=
  let build := fun (stage : String) (title : String) (tasks : List ChecklistTask) =>
    if tasks.length > 0 then some (formatStageForLinear stage title tasks inputs) else none
  ⟨build "stage1" stage1Title checklist.stage1,
   build "stage2" stage2Title checklist.stage2,
   build "stage3" stage3Title checklist.stage3,
   build "stage4" stage4Title checklist.stage4⟩

/-- The full result bundle returned by `process`. -/
structure ProcessResult where
  risk : RiskResult
  scenario : String
  keyFocus : String
  priorityActions : List Action
  checklist : Checklist
  alerts : List Alert
  linearMarkdown : String
  stageMarkdown : StageMarkdown
deriving DecidableEq

/-- `process(inputs)`: the main entry point, assembling every component. -/
def process (today : JSDate) (inputs : Inputs) : ProcessResult :=
  let risk := calculateRisk today inputs
  let scenario := generateScenarioDescription today inputs
  let keyFocus := generateKeyFocus today inputs risk.level
  let priorityActions := generatePriorityActions today inputs risk.level
  let checklist := generateChecklist today inputs risk.level
  let alerts := generateAlerts inputs
  let linearMarkdown := formatForLinear today inputs risk checklist priorityActions alerts
  let stageMarkdown := generateStageMarkdown inputs checklist
  ⟨risk, scenario, keyFocus, priorityActions, checklist, alerts, linearMarkdown, stageMarkdown⟩

/-- Canonical input record for finite-domain lemmas: the categorical fields
are the arguments and every free-text field (never read by the rule logic)
is empty. -/
def mkInputs (st : SaleType) (cs : YNU) (ar fbs : YesNo) (fd wtp : YNU)
    (bl : BlacklistStatus) (bd : YesNo) : Inputs :=
  ⟨⟨"", ⟨0, 0⟩⟩, st, cs, ar, fbs, fd, wtp, bl, bd, "", "", "", "", ""⟩

/-- A concrete current date used by concrete-input theorems. -/
def sampleToday : JSDate := ⟨19800, 36000000⟩

/-- The sample fixture from the specification: stock sale, signed contract,
no AR, no FBS, nobody blacklisted, acquisition date in the past. -/
def sampleFixture : Inputs :=
  ⟨⟨"2024-01-15", ⟨19737, 0⟩⟩, .stock, .yes, .no, .no, .unknown, .unknown, .none, .no,
   "Sunrise Care Group", "Horizon Health LLC", "Sunrise Facility A", "", ""⟩

/-- A concrete input whose new and old owners are both blacklisted, with no
bad debt and no distress signals. -/
def bothBlacklistedInput : Inputs := mkInputs .asset .yes .yes .no .no .yes .both .no

end DecisionEngine

namespace DecisionEngine

/- Finite-domain key lemmas, each settled by exhaustive evaluation over the
categorical input domains. -/

set_option maxHeartbeats 2000000 in
set_option synthInstance.maxSize 5000 in
theorem calculateRiskT_no_exposure_level :
    ∀ (t : Timing) (st : SaleType) (cs : YNU) (ar fbs : YesNo) (fd wtp : YNU)
      (bl : BlacklistStatus) (bd : YesNo),
      ar = YesNo.no → fbs = YesNo.no →
      (calculateRiskT t (mkInputs st cs ar fbs fd wtp bl bd)).level =
        (if bl = .new ∨ bl = .both then Level.medium else Level.low) := by
  decide

set_option maxHeartbeats 2000000 in
set_option synthInstance.maxSize 5000 in
theorem calculateRiskT_total :
    ∀ (t : Timing) (st : SaleType) (cs : YNU) (ar fbs : YesNo) (fd wtp : YNU)
      (bl : BlacklistStatus) (bd : YesNo),
      ((calculateRiskT t (mkInputs st cs ar fbs fd wtp bl bd)).level = Level.low ∨
       (calculateRiskT t (mkInputs st cs ar fbs fd wtp bl bd)).level = Level.medium ∨
       (calculateRiskT t (mkInputs st cs ar fbs fd wtp bl bd)).level = Level.high) ∧
      (calculateRiskT t (mkInputs st cs ar fbs fd wtp bl bd)).reasons ≠ [] := by
  decide

/-- C1: with no outstanding AR and no future booked shifts, `calculateRisk`
returns `medium` when the new owner is blacklisted (`new` or `both`) and `low`
otherwise, regardless of every other field and of the acquisition date. -/
theorem claim1_no_exposure_dominates (today : JSDate) (inputs : Inputs)
    (hAR : inputs.outstandingAR = YesNo.no)
    (hFBS : inputs.futureBookedShifts = YesNo.no) :
    (calculateRisk today inputs).level =
      (if inputs.blacklisted = .new ∨ inputs.blacklisted = .both
       then Level.medium else Level.low) := by
  obtain ⟨ad, st, cs, ar, fbs, fd, wtp, bl, bd, o, n, af, nf, nc⟩ := inputs
  exact calculateRiskT_no_exposure_level (getTiming ad today) st cs ar fbs fd wtp bl bd hAR hFBS

theorem claim1_witness :
    (calculateRisk sampleToday sampleFixture).level =
      (if sampleFixture.blacklisted = .new ∨ sampleFixture.blacklisted = .both
       then Level.medium else Level.low) :=
  claim1_no_exposure_dominates sampleToday sampleFixture rfl rfl

/-- C2: for every input combination and either timing, `calculateRisk` returns
exactly one level drawn from low, medium, high, with a non-empty reasons
list. -/
theorem claim2_totality (today : JSDate) (inputs : Inputs) :
    ((calculateRisk today inputs).level = Level.low ∨
     (calculateRisk today inputs).level = Level.medium ∨
     (calculateRisk today inputs).level = Level.high) ∧
    (calculateRisk today inputs).reasons ≠ [] := by
  obtain ⟨ad, st, cs, ar, fbs, fd, wtp, bl, bd, o, n, af, nf, nc⟩ := inputs
  exact calculateRiskT_total (getTiming ad today) st cs ar fbs fd wtp bl bd

theorem claim2_witness :
    ((calculateRisk sampleToday sampleFixture).level = Level.low ∨
     (calculateRisk sampleToday sampleFixture).level = Level.medium ∨
     (calculateRisk sampleToday sampleFixture).level = Level.high) ∧
    (calculateRisk sampleToday sampleFixture).reasons ≠ [] :=
  claim2_totality sampleToday sampleFixture

/-- C7: `process` is a pure function of the input record and the current date,
so two invocations on the same arguments agree in every component. -/
theorem claim7_process_deterministic (today : JSDate) (inputs : Inputs) :
    process today inputs = process today inputs ∧
    (process today inputs).risk = (process today inputs).risk ∧
    (process today inputs).scenario = (process today inputs).scenario ∧
    (process today inputs).keyFocus = (process today inputs).keyFocus ∧
    (process today inputs).priorityActions = (process today inputs).priorityActions ∧
    (process today inputs).checklist = (process today inputs).checklist ∧
    (process today inputs).alerts = (process today inputs).alerts ∧
    (process today inputs).linearMarkdown = (process today inputs).linearMarkdown ∧
    (process today inputs).stageMarkdown = (process today inputs).stageMarkdown :=
  ⟨rfl, rfl, rfl, rfl, rfl, rfl, rfl, rfl, rfl⟩

theorem claim7_witness :
    process sampleToday sampleFixture = process sampleToday sampleFixture ∧
    (process sampleToday sampleFixture).risk = (process sampleToday sampleFixture).risk ∧
    (process sampleToday sampleFixture).scenario = (process sampleToday sampleFixture).scenario ∧
    (process sampleToday sampleFixture).keyFocus = (process sampleToday sampleFixture).keyFocus ∧
    (process sampleToday sampleFixture).priorityActions = (process sampleToday sampleFixture).priorityActions ∧
    (process sampleToday sampleFixture).checklist = (process sampleToday sampleFixture).checklist ∧
    (process sampleToday sampleFixture).alerts = (process sampleToday sampleFixture).alerts ∧
    (process sampleToday sampleFixture).linearMarkdown = (process sampleToday sampleFixture).linearMarkdown ∧
    (process sampleToday sampleFixture).stageMarkdown = (process sampleToday sampleFixture).stageMarkdown :=
  claim7_process_deterministic sampleToday sampleFixture

/-- C8: `getTiming` answers `past` exactly when the acquisition date, time of
day stripped, is on or before the current date, time of day stripped, i.e. a
day-only comparison; otherwise it answers `future`. -/
theorem claim8_getTiming_day_comparison (acq : DateString) (today : JSDate) :
    (getTiming acq today = Timing.past ↔ acq.parsed.day ≤ today.day) ∧
    (getTiming acq today = Timing.future ↔ today.day < acq.parsed.day) := by
  have key : ((setHoursZero acq.parsed).timestamp ≤ (setHoursZero today).timestamp) ↔
      acq.parsed.day ≤ today.day := by
    simp only [setHoursZero, JSDate.timestamp, msPerDay]
    omega
  simp only [getTiming]
  by_cases h : (setHoursZero acq.parsed).timestamp ≤ (setHoursZero today).timestamp
  · rw [if_pos h]
    rw [key] at h
    constructor
    · constructor
      · intro _; exact h
      · intro _; rfl
    · constructor
      · intro hc; exact nomatch hc
      · intro hlt; exact absurd h (not_le.mpr hlt)
  · rw [if_neg h]
    rw [key] at h
    constructor
    · constructor
      · intro hc; exact nomatch hc
      · intro hle; exact absurd hle h
    · constructor
      · intro _; exact lt_of_not_le h
      · intro _; rfl

theorem claim8_witness :
    (getTiming sampleFixture.acquisitionDate sampleToday = Timing.past ↔
      sampleFixture.acquisitionDate.parsed.day ≤ sampleToday.day) ∧
    (getTiming sampleFixture.acquisitionDate sampleToday = Timing.future ↔
      sampleToday.day < sampleFixture.acquisitionDate.parsed.day) :=
  claim8_getTiming_day_comparison sampleFixture.acquisitionDate sampleToday

set_option maxHeartbeats 2000000 in
set_option synthInstance.maxSize 5000 in
theorem calculateRiskT_stock_contract :
    ∀ (t : Timing) (st : SaleType) (cs : YNU) (ar fbs : YesNo) (fd wtp : YNU)
      (bl : BlacklistStatus) (bd : YesNo),
      (ar = YesNo.yes ∨ fbs = YesNo.yes) → st = SaleType.stock → cs = YNU.yes →
      (calculateRiskT t (mkInputs st cs ar fbs fd wtp bl bd)).level =
        (if bl = .new ∨ bl = .both then Level.high else Level.low) ∧
      (fd = YNU.yes →
        "Note: Financial distress signals present, but new owner has signed contract" ∈
          (calculateRiskT t (mkInputs st cs ar fbs fd wtp bl bd)).reasons) := by
  decide

/-- C3: with financial exposure, a stock sale and a signed contract,
`calculateRisk` returns `high` exactly when the new owner is blacklisted and
`low` otherwise; financial distress contributes a reasons entry but never
changes the level in this branch. -/
theorem claim3_stock_contract_branch (today : JSDate) (inputs : Inputs)
    (hExp : inputs.outstandingAR = YesNo.yes ∨ inputs.futureBookedShifts = YesNo.yes)
    (hSt : inputs.saleType = SaleType.stock)
    (hC : inputs.contractSigned = YNU.yes) :
    (calculateRisk today inputs).level =
      (if inputs.blacklisted = .new ∨ inputs.blacklisted = .both
       then Level.high else Level.low) ∧
    (inputs.financialDistress = YNU.yes →
      "Note: Financial distress signals present, but new owner has signed contract" ∈
        (calculateRisk today inputs).reasons) := by
  obtain ⟨ad, st, cs, ar, fbs, fd, wtp, bl, bd, o, n, af, nf, nc⟩ := inputs
  exact calculateRiskT_stock_contract (getTiming ad today) st cs ar fbs fd wtp bl bd hExp hSt hC

theorem claim3_witness :
    ((calculateRisk sampleToday (mkInputs .stock .yes .yes .no .yes .unknown .none .no)).level =
      (if (mkInputs .stock .yes .yes .no .yes .unknown .none .no).blacklisted = .new ∨
          (mkInputs .stock .yes .yes .no .yes .unknown .none .no).blacklisted = .both
       then Level.high else Level.low)) ∧
    ((mkInputs .stock .yes .yes .no .yes .unknown .none .no).financialDistress = YNU.yes →
      "Note: Financial distress signals present, but new owner has signed contract" ∈
        (calculateRisk sampleToday (mkInputs .stock .yes .yes .no .yes .unknown .none .no)).reasons) :=
  claim3_stock_contract_branch sampleToday (mkInputs .stock .yes .yes .no .yes .unknown .none .no)
    (Or.inl rfl) rfl rfl

set_option maxHeartbeats 2000000 in
set_option synthInstance.maxSize 5000 in
theorem calculateRiskT_blacklisted_new_never_low :
    ∀ (t : Timing) (st : SaleType) (cs : YNU) (ar fbs : YesNo) (fd wtp : YNU)
      (bl : BlacklistStatus) (bd : YesNo),
      (bl = BlacklistStatus.new ∨ bl = BlacklistStatus.both) →
      (calculateRiskT t (mkInputs st cs ar fbs fd wtp bl bd)).level ≠ Level.low ∧
      (calculateRiskT t (mkInputs st cs ar fbs fd wtp bl bd)).level =
        (if ar = YesNo.yes ∨ fbs = YesNo.yes then Level.high else Level.medium) := by
  decide

/-- C9: when the new owner is blacklisted (`new` or `both`), `calculateRisk`
never returns `low`: it returns `high` whenever there is financial exposure
and `medium` otherwise. -/
theorem claim9_blacklisted_never_low (today : JSDate) (inputs : Inputs)
    (hBl : inputs.blacklisted = BlacklistStatus.new ∨ inputs.blacklisted = BlacklistStatus.both) :
    (calculateRisk today inputs).level ≠ Level.low ∧
    (calculateRisk today inputs).level =
      (if inputs.outstandingAR = YesNo.yes ∨ inputs.futureBookedShifts = YesNo.yes
       then Level.high else Level.medium) := by
  obtain ⟨ad, st, cs, ar, fbs, fd, wtp, bl, bd, o, n, af, nf, nc⟩ := inputs
  exact calculateRiskT_blacklisted_new_never_low (getTiming ad today) st cs ar fbs fd wtp bl bd hBl

theorem claim9_witness :
    (calculateRisk sampleToday (mkInputs .asset .no .yes .no .no .no .new .yes)).level ≠ Level.low ∧
    (calculateRisk sampleToday (mkInputs .asset .no .yes .no .no .no .new .yes)).level =
      (if (mkInputs .asset .no .yes .no .no .no .new .yes).outstandingAR = YesNo.yes ∨
          (mkInputs .asset .no .yes .no .no .no .new .yes).futureBookedShifts = YesNo.yes
       then Level.high else Level.medium) :=
  claim9_blacklisted_never_low sampleToday (mkInputs .asset .no .yes .no .no .no .new .yes)
    (Or.inl rfl)

set_option maxHeartbeats 2000000 in
set_option synthInstance.maxSize 5000 in
theorem generateChecklistT_no_exposure_override :
    ∀ (t : Timing) (st : SaleType) (cs : YNU) (ar fbs : YesNo) (fd wtp : YNU)
      (bl : BlacklistStatus) (bd : YesNo),
      ar = YesNo.no → fbs = YesNo.no →
      (generateChecklistT t (mkInputs st cs ar fbs fd wtp bl bd) Level.low).stage2.length = 1 ∧
      (generateChecklistT t (mkInputs st cs ar fbs fd wtp bl bd) Level.low).stage3.length = 1 ∧
      (generateChecklistT t (mkInputs st cs ar fbs fd wtp bl bd) Level.low).stage4 =
        [⟨"No ongoing collection needed - $0 AR", true, none, none⟩] := by
  decide

/-- C5: whenever there is no outstanding AR and no future booked shifts, the
no-exposure override leaves exactly one task in stage 2, exactly one in stage
3, and makes stage 4 a single already-completed task, for every choice of the
remaining fields. -/
theorem claim5_checklist_override (today : JSDate) (inputs : Inputs) (riskLevel : Level)
    (hAR : inputs.outstandingAR = YesNo.no)
    (hFBS : inputs.futureBookedShifts = YesNo.no) :
    (generateChecklist today inputs riskLevel).stage2.length = 1 ∧
    (generateChecklist today inputs riskLevel).stage3.length = 1 ∧
    (generateChecklist today inputs riskLevel).stage4 =
      [⟨"No ongoing collection needed - $0 AR", true, none, none⟩] := by
  obtain ⟨ad, st, cs, ar, fbs, fd, wtp, bl, bd, o, n, af, nf, nc⟩ := inputs
  exact generateChecklistT_no_exposure_override (getTiming ad today) st cs ar fbs fd wtp bl bd hAR hFBS

theorem claim5_witness :
    (generateChecklist sampleToday sampleFixture Level.low).stage2.length = 1 ∧
    (generateChecklist sampleToday sampleFixture Level.low).stage3.length = 1 ∧
    (generateChecklist sampleToday sampleFixture Level.low).stage4 =
      [⟨"No ongoing collection needed - $0 AR", true, none, none⟩] :=
  claim5_checklist_override sampleToday sampleFixture Level.low rfl rfl

set_option maxHeartbeats 2000000 in
set_option synthInstance.maxSize 5000 in
theorem generateChecklistT_stage4_empty :
    ∀ (t : Timing) (st : SaleType) (cs : YNU) (ar fbs : YesNo) (fd wtp : YNU)
      (bl : BlacklistStatus) (bd : YesNo),
      ar = YesNo.no → fbs = YesNo.yes →
      (generateChecklistT t (mkInputs st cs ar fbs fd wtp bl bd) Level.low).stage4 = [] := by
  decide

set_option maxHeartbeats 2000000 in
set_option synthInstance.maxSize 5000 in
theorem generateChecklistT_stages123_nonempty :
    ∀ (t : Timing) (st : SaleType) (cs : YNU) (ar fbs : YesNo) (fd wtp : YNU)
      (bl : BlacklistStatus) (bd : YesNo),
      (generateChecklistT t (mkInputs st cs ar fbs fd wtp bl bd) Level.low).stage1 ≠ [] ∧
      (generateChecklistT t (mkInputs st cs ar fbs fd wtp bl bd) Level.low).stage2 ≠ [] ∧
      (generateChecklistT t (mkInputs st cs ar fbs fd wtp bl bd) Level.low).stage3 ≠ [] := by
  decide

/-- C10: with no outstanding AR but future booked shifts, stage 4 of the
checklist is empty; consequently its section contributes nothing to the
aggregate document and no stage-4 document is generated. Stages 1 to 3 are
never empty for any input, so stage 4 is the only stage that can be empty. -/
theorem claim10_stage4_only_empty_stage (today : JSDate) (inputs : Inputs) (riskLevel : Level)
    (hAR : inputs.outstandingAR = YesNo.no)
    (hFBS : inputs.futureBookedShifts = YesNo.yes) :
    (generateChecklist today inputs riskLevel).stage4 = [] ∧
    stageSection stage4Title (generateChecklist today inputs riskLevel).stage4 = "" ∧
    (generateStageMarkdown inputs (generateChecklist today inputs riskLevel)).stage4 = none ∧
    (∀ (d : JSDate) (j : Inputs) (lv : Level),
      (generateChecklist d j lv).stage1 ≠ [] ∧
      (generateChecklist d j lv).stage2 ≠ [] ∧
      (generateChecklist d j lv).stage3 ≠ []) := by
  have h4 : (generateChecklist today inputs riskLevel).stage4 = [] := by
    obtain ⟨ad, st, cs, ar, fbs, fd, wtp, bl, bd, o, n, af, nf, nc⟩ := inputs
    exact generateChecklistT_stage4_empty (getTiming ad today) st cs ar fbs fd wtp bl bd hAR hFBS
  refine ⟨h4, ?_, ?_, ?_⟩
  · rw [h4]; rfl
  · simp [generateStageMarkdown, h4]
  · intro d j lv
    obtain ⟨ad, st, cs, ar, fbs, fd, wtp, bl, bd, o, n, af, nf, nc⟩ := j
    exact generateChecklistT_stages123_nonempty (getTiming ad d) st cs ar fbs fd wtp bl bd

theorem claim10_witness :
    (generateChecklist sampleToday (mkInputs .asset .no .no .yes .no .no .none .no) Level.medium).stage4 = [] ∧
    stageSection stage4Title
      (generateChecklist sampleToday (mkInputs .asset .no .no .yes .no .no .none .no) Level.medium).stage4 = "" ∧
    (generateStageMarkdown (mkInputs .asset .no .no .yes .no .no .none .no)
      (generateChecklist sampleToday (mkInputs .asset .no .no .yes .no .no .none .no) Level.medium)).stage4 = none ∧
    (∀ (d : JSDate) (j : Inputs) (lv : Level),
      (generateChecklist d j lv).stage1 ≠ [] ∧
      (generateChecklist d j lv).stage2 ≠ [] ∧
      (generateChecklist d j lv).stage3 ≠ []) :=
  claim10_stage4_only_empty_stage sampleToday (mkInputs .asset .no .no .yes .no .no .none .no)
    Level.medium rfl rfl

set_option maxRecDepth 100000 in
set_option maxHeartbeats 2000000 in
/-- C4 counterexample: at the specification sample fixture (stock sale, signed
contract, no AR, no FBS, nobody blacklisted, past acquisition date) the risk
level is `low`, but the priority actions are the three no-exposure actions;
no action text contains "Update account information across all platforms". -/
theorem claim4_counterexample :
    (calculateRisk sampleToday sampleFixture).level = Level.low ∧
    generatePriorityActions sampleToday sampleFixture (calculateRisk sampleToday sampleFixture).level =
      [⟨"Alert leadership of the CHOW", .high⟩,
       ⟨"Archive the account to prevent posting under new ownership without contract", .high⟩,
       ⟨"Sales treats this as standard new customer onboarding if they want to continue", .high⟩] ∧
    ¬ (∃ a ∈ generatePriorityActions sampleToday sampleFixture
          (calculateRisk sampleToday sampleFixture).level,
        List.IsInfix "Update account information across all platforms".data a.text.data) := by
  decide

set_option maxHeartbeats 2000000 in
set_option synthInstance.maxSize 5000 in
theorem no_exposure_fixture_actions :
    ∀ (t : Timing) (st : SaleType) (cs : YNU) (ar fbs : YesNo) (fd wtp : YNU)
      (bl : BlacklistStatus) (bd : YesNo),
      st = SaleType.stock → cs = YNU.yes → ar = YesNo.no → fbs = YesNo.no →
      bl = BlacklistStatus.none →
      (calculateRiskT t (mkInputs st cs ar fbs fd wtp bl bd)).level = Level.low ∧
      generatePriorityActionsT t (mkInputs st cs ar fbs fd wtp bl bd)
          ((calculateRiskT t (mkInputs st cs ar fbs fd wtp bl bd)).level) =
        [⟨"Alert leadership of the CHOW", .high⟩,
         ⟨"Archive the account to prevent posting under new ownership without contract", .high⟩,
         ⟨"Sales treats this as standard new customer onboarding if they want to continue", .high⟩] := by
  decide

/-- C4 amended: at the sample fixture the risk level is `low` and the priority
actions are the three no-exposure actions, each with confidence `high`,
including the "Archive the account" action. -/
theorem claim4_amended_fixture_actions (today : JSDate) (inputs : Inputs)
    (hSt : inputs.saleType = SaleType.stock)
    (hC : inputs.contractSigned = YNU.yes)
    (hAR : inputs.outstandingAR = YesNo.no)
    (hFBS : inputs.futureBookedShifts = YesNo.no)
    (hBl : inputs.blacklisted = BlacklistStatus.none) :
    (calculateRisk today inputs).level = Level.low ∧
    generatePriorityActions today inputs (calculateRisk today inputs).level =
      [⟨"Alert leadership of the CHOW", .high⟩,
       ⟨"Archive the account to prevent posting under new ownership without contract", .high⟩,
       ⟨"Sales treats this as standard new customer onboarding if they want to continue", .high⟩] := by
  obtain ⟨ad, st, cs, ar, fbs, fd, wtp, bl, bd, o, n, af, nf, nc⟩ := inputs
  exact no_exposure_fixture_actions (getTiming ad today) st cs ar fbs fd wtp bl bd hSt hC hAR hFBS hBl

theorem claim4_witness :
    (calculateRisk sampleToday sampleFixture).level = Level.low ∧
    generatePriorityActions sampleToday sampleFixture (calculateRisk sampleToday sampleFixture).level =
      [⟨"Alert leadership of the CHOW", .high⟩,
       ⟨"Archive the account to prevent posting under new ownership without contract", .high⟩,
       ⟨"Sales treats this as standard new customer onboarding if they want to continue", .high⟩] :=
  claim4_amended_fixture_actions sampleToday sampleFixture rfl rfl rfl rfl rfl

/-- C6 counterexample: with both owners blacklisted (and no bad debt or
distress), `generateAlerts` produces only the critical new-owner alert; the
old-owner warning is absent, contradicting the claim that `blacklisted='both'`
yields both alerts. -/
theorem claim6_counterexample :
    generateAlerts bothBlacklistedInput = [⟨.critical, newOwnerAlertText⟩] ∧
    ¬ (∃ a ∈ generateAlerts bothBlacklistedInput, a.type = AlertType.warning) := by
  decide

set_option maxRecDepth 100000 in
set_option maxHeartbeats 2000000 in
theorem generateAlerts_guard_characterization :
    ∀ (bl : BlacklistStatus) (bd : YesNo) (fd : YNU),
      List.Sublist (generateAlerts (mkInputs .asset .yes .yes .yes fd .yes bl bd))
        [⟨.critical, newOwnerAlertText⟩, ⟨.warning, oldOwnerAlertText⟩,
         ⟨.warning, badDebtAlertText⟩, ⟨.warning, distressAlertText⟩] ∧
      ((⟨.critical, newOwnerAlertText⟩ : Alert) ∈
          generateAlerts (mkInputs .asset .yes .yes .yes fd .yes bl bd) ↔
        (bl = .new ∨ bl = .both)) ∧
      ((⟨.warning, oldOwnerAlertText⟩ : Alert) ∈
          generateAlerts (mkInputs .asset .yes .yes .yes fd .yes bl bd) ↔ bl = .old) ∧
      ((⟨.warning, badDebtAlertText⟩ : Alert) ∈
          generateAlerts (mkInputs .asset .yes .yes .yes fd .yes bl bd) ↔ bd = .yes) ∧
      ((⟨.warning, distressAlertText⟩ : Alert) ∈
          generateAlerts (mkInputs .asset .yes .yes .yes fd .yes bl bd) ↔ fd = .yes) := by
  decide

/-- C6 amended: `generateAlerts` checks four independent guards in the fixed
order new-owner-blacklisted (critical), old-owner-blacklisted (warning,
firing only when blacklisted is exactly `old`), bad-debt (warning),
financial-distress (warning), each appending at most one alert; consequently
for `blacklisted='both'` the critical new-owner alert is present but the
old-owner warning is not. -/
theorem claim6_alert_guards (inputs : Inputs) :
    List.Sublist (generateAlerts inputs)
      [⟨.critical, newOwnerAlertText⟩, ⟨.warning, oldOwnerAlertText⟩,
       ⟨.warning, badDebtAlertText⟩, ⟨.warning, distressAlertText⟩] ∧
    ((⟨.critical, newOwnerAlertText⟩ : Alert) ∈ generateAlerts inputs ↔
      (inputs.blacklisted = .new ∨ inputs.blacklisted = .both)) ∧
    ((⟨.warning, oldOwnerAlertText⟩ : Alert) ∈ generateAlerts inputs ↔
      inputs.blacklisted = .old) ∧
    ((⟨.warning, badDebtAlertText⟩ : Alert) ∈ generateAlerts inputs ↔
      inputs.badDebt = .yes) ∧
    ((⟨.warning, distressAlertText⟩ : Alert) ∈ generateAlerts inputs ↔
      inputs.financialDistress = .yes) := by
  obtain ⟨ad, st, cs, ar, fbs, fd, wtp, bl, bd, o, n, af, nf, nc⟩ := inputs
  exact generateAlerts_guard_characterization bl bd fd

theorem claim6_witness :
    List.Sublist (generateAlerts bothBlacklistedInput)
      [⟨.critical, newOwnerAlertText⟩, ⟨.warning, oldOwnerAlertText⟩,
       ⟨.warning, badDebtAlertText⟩, ⟨.warning, distressAlertText⟩] ∧
    ((⟨.critical, newOwnerAlertText⟩ : Alert) ∈ generateAlerts bothBlacklistedInput ↔
      (bothBlacklistedInput.blacklisted = .new ∨ bothBlacklistedInput.blacklisted = .both)) ∧
    ((⟨.warning, oldOwnerAlertText⟩ : Alert) ∈ generateAlerts bothBlacklistedInput ↔
      bothBlacklistedInput.blacklisted = .old) ∧
    ((⟨.warning, badDebtAlertText⟩ : Alert) ∈ generateAlerts bothBlacklistedInput ↔
      bothBlacklistedInput.badDebt = .yes) ∧
    ((⟨.warning, distressAlertText⟩ : Alert) ∈ generateAlerts bothBlacklistedInput ↔
      bothBlacklistedInput.financialDistress = .yes) :=
  claim6_alert_guards bothBlacklistedInput

end DecisionEngine
